import Mathlib

/-!
# The Linux kernel-AIO disk provider `hpc_aio_provider`

A shallow embedding of `src/hpc_aio_provider.linux.cpp`.

* Machine integers are `Int`/`Nat` with explicit wrap-around at the C++ casts.
* Every call is a pure function from the state it touches to the new state,
  the list of effects it performed in program order (`action`) and its
  `outcome`.
* What the kernel answers (`io_submit`, `read`, `io_getevents`) is an input.
* A thread blocked in `notify_event::wait` is the outcome `waiting`; the part
  of `aio_internal` after the wait is `aio_internal_wait`.
-/

namespace dsn.tools

/-! ## Values -/

/-- The three status codes this file uses. -/
inductive error_code where
  | ERR_OK
  | ERR_IO_PENDING
  | ERR_FILE_OPERATION_FAILED
  deriving DecidableEq, Repr

/-- The operation kind of a request: the two enumerators the `switch` in
`aio_internal` names, and every other value of the enumeration. -/
inductive aio_type where
  | AIO_Read
  | AIO_Write
  | unknown (v : Nat)
  deriving DecidableEq, Repr

/-- The conversion `static_cast<int>(x)`: wrap to a signed 32-bit value. -/
def static_cast_int (x : Int) : Int := (x + 2 ^ 31) % 2 ^ 32 - 2 ^ 31

/-- The conversion `(ssize_t) x`: wrap to a signed 64-bit value. -/
def to_ssize_t (x : Int) : Int := (x + 2 ^ 63) % 2 ^ 64 - 2 ^ 63

/-- The implicit conversion of an `int` to an unsigned 32-bit parameter or
field. -/
def to_uint32 (x : Int) : Nat := (x % 2 ^ 32).toNat

/-- The conversion `(uintptr_t) x` of an `int`. -/
def to_uintptr (x : Int) : Nat := (x % 2 ^ 64).toNat

/-- The kernel control block `struct iocb` of the kernel AIO library. -/
structure iocb where
  data : Nat
  key : Nat
  aio_lio_opcode : Int
  aio_reqprio : Int
  aio_fildes : Int
  buf : Nat
  nbytes : Nat
  offset : Int
  flags : Nat
  resfd : Nat
  deriving DecidableEq, Repr

/-- The control block after `memset(&cb, 0, sizeof(cb))` or `bzero`. -/
def iocb_zero : iocb :=
  { data := 0, key := 0, aio_lio_opcode := 0, aio_reqprio := 0, aio_fildes := 0,
    buf := 0, nbytes := 0, offset := 0, flags := 0, resfd := 0 }

def IO_CMD_PREAD : Int := 0

def IO_CMD_PWRITE : Int := 1

/-- Library helper `io_prep_pread(iocb, fd, buf, count, offset)`: clears the
block, then fills descriptor, opcode, buffer, length and offset. -/
def io_prep_pread (_cb : iocb) (fd : Int) (buf count : Nat) (offset : Int) : iocb :=
  { iocb_zero with
    aio_fildes := fd, aio_lio_opcode := IO_CMD_PREAD, aio_reqprio := 0,
    buf := buf, nbytes := count, offset := offset }

/-- Library helper `io_prep_pwrite(iocb, fd, buf, count, offset)`. -/
def io_prep_pwrite (_cb : iocb) (fd : Int) (buf count : Nat) (offset : Int) : iocb :=
  { iocb_zero with
    aio_fildes := fd, aio_lio_opcode := IO_CMD_PWRITE, aio_reqprio := 0,
    buf := buf, nbytes := count, offset := offset }

/-- Library helper `io_set_eventfd(iocb, eventfd)`: sets the RESFD flag bit and
stores the channel descriptor, an `int`, in the unsigned 32-bit field
`resfd`. -/
def io_set_eventfd (cb : iocb) (eventfd : Int) : iocb :=
  { cb with flags := cb.flags ||| 1, resfd := to_uint32 eventfd }

/-- The wait slot `utils::notify_event`: one bit, set by `notify`. -/
structure notify_event where
  signaled : Bool
  deriving DecidableEq, Repr

/-- The per-request record `linux_disk_aio_context`.  The first five fields are
those of the base `disk_aio` that `aio_internal` reads; its declaration is in
a header outside this file, so `buffer`, `buffer_size` and `file_offset` are
values of the types of the helper parameters they are passed to (pointer,
`size_t`, `long long`), and `file` is the pointer-sized handle that `open`
makes.  Pointers are addresses, `evt = none` is the null pointer. -/
structure linux_disk_aio_context where
  type : aio_type
  file : Nat
  buffer : Nat
  buffer_size : Nat
  file_offset : Int
  cb : iocb
  tsk : Nat
  this_ : Nat
  evt : Option notify_event
  err : error_code
  bytes : Nat
  deriving DecidableEq, Repr

/-- The texts handed to `derror`. -/
inductive log_message where
  | unknown_aio_type (t : aio_type)
  | io_submit_error (ret : Int)
  | could_not_submit (ret : Int)
  | aio_error (err : Int)
  deriving DecidableEq, Repr

/-- The effects the provider performs, recorded in program order. -/
inductive action where
  | bind_io_handle (fd : Int)
  | derror (m : log_message)
  | new_notify_event
  | delete_notify_event
  | store_err (e : error_code)
  | store_bytes (b : Nat)
  | io_submit (cb : iocb)
  | complete_io (tsk : Nat) (err : error_code) (bytes : Nat)
  | wait
  | notify
  | read_event_fd
  | io_getevents (ret : Int)
  | complete_aio (io : Nat) (bytes err : Int)
  deriving DecidableEq, Repr

/-- How a call ends: it returns, its thread is suspended in `wait`, a `dassert`
stops the process, or it dereferences a null pointer. -/
inductive outcome (α : Type) where
  | returned (a : α)
  | waiting
  | assertion_failed
  | null_dereference
  deriving DecidableEq, Repr

/-- The engine object.  `self` is its address (`this`). -/
structure hpc_aio_provider where
  self : Nat
  _looper : Bool
  _ctx : Nat
  _event_fd : Int
  _event_fd_registered : Bool
  deriving DecidableEq, Repr

/-! ## Construction, handles, contexts -/

/-- The constructor (lines 46-66).  `looper` tells whether `get_io_looper`
returned a looper, `io_setup_ret` and `ctx` are what `io_setup` returned and
filled in, `event_fd` is what `eventfd` returned.  `none` is the failed
`dassert(ret == 0)`. -/
def hpc_aio_provider.ctor (self : Nat) (looper : Bool) (io_setup_ret : Int) (ctx : Nat)
    (event_fd : Int) : Option (hpc_aio_provider × List action) :=
  if io_setup_ret = 0 then
    if looper then
      some ({ self := self, _looper := looper, _ctx := ctx, _event_fd := event_fd,
              _event_fd_registered := true },
            [action.bind_io_handle event_fd])
    else
      some ({ self := self, _looper := looper, _ctx := ctx, _event_fd := event_fd,
              _event_fd_registered := false },
            [])
  else
    none

/-- The handle `hpc_aio_provider::open` returns for the descriptor `fd` the
system call gave: `(dsn_handle_t)(uintptr_t) fd`. -/
def «open» (fd : Int) : Nat := to_uintptr fd

/-- The allocation in `prepare_aio_context` (lines 98-105): `raw` is the fresh
memory, of which the control block is cleared and `tsk`, `evt` are set. -/
def prepare_aio_context (raw : linux_disk_aio_context) (tsk : Nat) : linux_disk_aio_context :=
  { raw with cb := iocb_zero, tsk := tsk, evt := none }

/-! ## Submission -/

/-- What a call of `aio_internal` leaves behind. -/
structure aio_call where
  provider : hpc_aio_provider
  aio : linux_disk_aio_context
  pbytes : Option Nat
  trace : List action
  result : outcome error_code
  deriving DecidableEq, Repr

/-- Lines 119-123: bind the completion channel unless the flag is set.  The
accessor `get_looper()` is taken to hand out a looper. -/
def register_event_fd (p : hpc_aio_provider) : hpc_aio_provider × List action :=
  if !p._event_fd_registered then
    ({ p with _event_fd_registered := true }, [action.bind_io_handle p._event_fd])
  else
    (p, [])

/-- Lines 127-141: clear the control block, set the back-reference, prepare the
block by operation kind. -/
def prepare_cb (p : hpc_aio_provider) (aio : linux_disk_aio_context) :
    linux_disk_aio_context × List action :=
  let aio1 := { aio with cb := iocb_zero, this_ := p.self }
  match aio1.type with
  | aio_type.AIO_Read =>
    ({ aio1 with cb := io_prep_pread aio1.cb (static_cast_int (to_ssize_t aio1.file))
                         aio1.buffer aio1.buffer_size aio1.file_offset }, [])
  | aio_type.AIO_Write =>
    ({ aio1 with cb := io_prep_pwrite aio1.cb (static_cast_int (to_ssize_t aio1.file))
                         aio1.buffer aio1.buffer_size aio1.file_offset }, [])
  | t => (aio1, [action.derror (log_message.unknown_aio_type t)])

/-- Lines 143-148: in sync mode allocate the wait slot and clear the result
fields. -/
def prepare_evt (async : Bool) (aio : linux_disk_aio_context) :
    linux_disk_aio_context × List action :=
  if !async then
    ({ aio with evt := some { signaled := false }, err := error_code.ERR_OK, bytes := 0 },
     [action.new_notify_event, action.store_err error_code.ERR_OK, action.store_bytes 0])
  else
    (aio, [])

/-- The member `aio_internal(aio_tsk, async, pbytes)` (lines 113-188) up to and
including the call of `wait`.  `aio` is the record `aio_tsk->aio()` points to,
`pbytes = none` is the default null pointer, `ret` is what `io_submit`
returned. -/
def aio_internal (p : hpc_aio_provider) (aio_tsk : Nat) (aio : linux_disk_aio_context)
    (async : Bool) (pbytes : Option Nat) (ret : Int) : aio_call :=
  let r1 := register_event_fd p
  let r2 := prepare_cb r1.1 aio
  let r3 := prepare_evt async r2.1
  let aio4 := { r3.1 with cb := io_set_eventfd r3.1.cb r1.1._event_fd }
  let t := r1.2 ++ r2.2 ++ r3.2 ++ [action.io_submit aio4.cb]
  if ret ≠ 1 then
    let t5 := t ++ [action.derror (if ret < 0 then log_message.io_submit_error ret
                                   else log_message.could_not_submit ret)]
    if async then
      { provider := r1.1, aio := aio4, pbytes := pbytes,
        trace := t5 ++ [action.complete_io aio_tsk error_code.ERR_FILE_OPERATION_FAILED 0],
        result := outcome.returned error_code.ERR_FILE_OPERATION_FAILED }
    else
      { provider := r1.1, aio := { aio4 with evt := none }, pbytes := pbytes,
        trace := t5 ++ [action.delete_notify_event],
        result := outcome.returned error_code.ERR_FILE_OPERATION_FAILED }
  else
    if async then
      { provider := r1.1, aio := aio4, pbytes := pbytes, trace := t,
        result := outcome.returned error_code.ERR_IO_PENDING }
    else
      { provider := r1.1, aio := aio4, pbytes := pbytes, trace := t ++ [action.wait],
        result := outcome.waiting }

/-- Lines 181-185 from the wait on: the caller stays suspended until its wait
slot is signalled; then it deletes the slot, writes `*pbytes` and returns the
stored status.  `aio` is the record as the caller finds it. -/
def aio_internal_wait (p : hpc_aio_provider) (aio : linux_disk_aio_context)
    (pbytes : Option Nat) : aio_call :=
  match aio.evt with
  | none =>
    { provider := p, aio := aio, pbytes := pbytes, trace := [],
      result := outcome.null_dereference }
  | some e =>
    if e.signaled then
      match pbytes with
      | none =>
        { provider := p, aio := { aio with evt := none }, pbytes := none,
          trace := [action.delete_notify_event], result := outcome.null_dereference }
      | some _ =>
        { provider := p, aio := { aio with evt := none }, pbytes := some aio.bytes,
          trace := [action.delete_notify_event], result := outcome.returned aio.err }
    else
      { provider := p, aio := aio, pbytes := pbytes, trace := [],
        result := outcome.waiting }

/-- The member `aio(aio_tsk)` (lines 107-111). -/
def aio (p : hpc_aio_provider) (aio_tsk : Nat) (a : linux_disk_aio_context) (ret : Int) :
    aio_call :=
  aio_internal p aio_tsk a true none ret

/-! ## Completion -/

/-- A completion record `struct io_event` as `io_getevents` fills it: `obj` is
the address of the control block, `res` and `res2` are the 64-bit result
fields. -/
structure io_event where
  data : Nat
  obj : Nat
  res : Int
  res2 : Int
  deriving DecidableEq, Repr

/-- The member `complete_aio(io, bytes, err)` (lines 229-248) on the record
`aio` that `CONTAINING_RECORD` finds around `io`. -/
def complete_aio (aio : linux_disk_aio_context) (bytes err : Int) :
    linux_disk_aio_context × List action :=
  let t1 := if err ≠ 0 then [action.derror (log_message.aio_error err)] else []
  match aio.evt with
  | none =>
    (aio,
     t1 ++ [action.complete_io aio.tsk
              (if err = 0 then error_code.ERR_OK else error_code.ERR_FILE_OPERATION_FAILED)
              (to_uint32 bytes)])
  | some _ =>
    ({ aio with
        err := if err = 0 then error_code.ERR_OK else error_code.ERR_FILE_OPERATION_FAILED,
        bytes := to_uint32 bytes,
        evt := some { signaled := true } },
     t1 ++ [action.store_err
              (if err = 0 then error_code.ERR_OK else error_code.ERR_FILE_OPERATION_FAILED),
            action.store_bytes (to_uint32 bytes),
            action.notify])

/-- What the dispatcher thread works on: the request records by the address of
their control block, and the effects performed so far. -/
structure world where
  heap : Nat → linux_disk_aio_context
  trace : List action

/-- Lines 224-225: hand the record in `events[0]` to `complete_aio`. -/
def dispatch (w : world) (ev : io_event) : world :=
  let bytes := static_cast_int ev.res
  let err := static_cast_int ev.res2
  let r := complete_aio (w.heap ev.obj) bytes err
  { heap := fun a => if a = ev.obj then r.1 else w.heap a,
    trace := w.trace ++ [action.complete_aio ev.obj bytes err] ++ r.2 }

/-- The loop of `on_aio_completed` (lines 214-226).  The list holds what the
successive calls `io_getevents(_ctx, 1, 1, events, &tms)` answer: the returned
count and the content of `events[0]` afterwards; when the list is used up the
kernel queue is empty and the call returns 0.  `finished_aio` is passed on as
the loop body leaves it. -/
def on_aio_completed_loop (finished_aio : Int) :
    List (Int × io_event) → world → world × outcome Unit
  | [], w =>
    if finished_aio > 0 then
      ({ w with trace := w.trace ++ [action.io_getevents 0] }, outcome.assertion_failed)
    else
      (w, outcome.returned ())
  | (ret, ev) :: polls, w =>
    if finished_aio > 0 then
      let w1 := { w with trace := w.trace ++ [action.io_getevents ret] }
      if ret = 1 then
        on_aio_completed_loop finished_aio polls (dispatch w1 ev)
      else
        (w1, outcome.assertion_failed)
    else
      (w, outcome.returned ())

/-- The member `on_aio_completed(events)` (lines 199-227).  `read_ret` is what
`read(_event_fd, &finished_aio, sizeof(finished_aio))` returned and `count` the
value it left in `finished_aio`. -/
def on_aio_completed (_events : Nat) (read_ret : Int) (count : Int)
    (polls : List (Int × io_event)) (w : world) : world × outcome Unit :=
  let w1 := { w with trace := w.trace ++ [action.read_event_fd] }
  if read_ret ≠ 4 then
    (w1, outcome.assertion_failed)
  else
    on_aio_completed_loop count polls w1

/-- The looper callback `handle_event` (lines 190-197). -/
def handle_event (_native_error : Int) (_io_size : Nat) (lolp_or_events : Nat)
    (read_ret : Int) (count : Int) (polls : List (Int × io_event)) (w : world) :
    world × outcome Unit :=
  on_aio_completed (lolp_or_events % 2 ^ 32) read_ret count polls w

/-! ## Runs of submissions -/

/-- One call of `aio_internal` with what the kernel answers to it. -/
structure submission where
  aio_tsk : Nat
  aio : linux_disk_aio_context
  async : Bool
  pbytes : Option Nat
  ret : Int

/-- The submissions of a list made one after the other on the engine. -/
def submit_all : hpc_aio_provider → List submission → hpc_aio_provider × List action
  | p, [] => (p, [])
  | p, s :: ss =>
    let c := aio_internal p s.aio_tsk s.aio s.async s.pbytes s.ret
    let r := submit_all c.provider ss
    (r.1, c.trace ++ r.2)

/-- The records of a list resolved one after the other, each after a poll that
returned 1. -/
def resolve_all : List io_event → world → world
  | [], w => w
  | ev :: evs, w =>
    resolve_all evs (dispatch { w with trace := w.trace ++ [action.io_getevents 1] } ev)

def is_bind : action → Bool
  | action.bind_io_handle _ => true
  | _ => false

def is_complete_io : action → Bool
  | action.complete_io _ _ _ => true
  | _ => false

def is_io_submit : action → Bool
  | action.io_submit _ => true
  | _ => false

def is_unknown_type_log : action → Bool
  | action.derror (log_message.unknown_aio_type _) => true
  | _ => false

/-- A request of 512 bytes at offset 0 on file handle 3 for task 7, of the given
kind and wait slot. -/
def sample_aio (t : aio_type) (evt : Option notify_event) : linux_disk_aio_context :=
  { type := t, file := 3, buffer := 4096, buffer_size := 512, file_offset := 0,
    cb := iocb_zero, tsk := 7, this_ := 0, evt := evt, err := error_code.ERR_OK, bytes := 0 }

/-- An engine whose completion channel is descriptor 5. -/
def sample_provider (registered : Bool) : hpc_aio_provider :=
  { self := 1, _looper := registered, _ctx := 9, _event_fd := 5,
    _event_fd_registered := registered }

/-- A dispatcher state in which every address holds an async request. -/
def sample_world : world :=
  { heap := fun _ => sample_aio aio_type.AIO_Read none, trace := [] }

/-! ## Helper lemmas -/

theorem register_event_fd_trace_filter (p : hpc_aio_provider) :
    (register_event_fd p).2.filter is_complete_io = [] := by
  unfold register_event_fd
  cases p._event_fd_registered <;> simp [is_complete_io]

theorem prepare_cb_trace_filter (p : hpc_aio_provider) (a : linux_disk_aio_context) :
    (prepare_cb p a).2.filter is_complete_io = [] := by
  unfold prepare_cb
  rcases a with ⟨ty, _, _, _, _, _, _, _, _, _, _⟩
  cases ty <;> simp [is_complete_io]

theorem prepare_cb_evt (p : hpc_aio_provider) (a : linux_disk_aio_context) :
    (prepare_cb p a).1.evt = a.evt := by
  unfold prepare_cb
  rcases a with ⟨ty, _, _, _, _, _, _, _, _, _, _⟩
  cases ty <;> simp

theorem register_event_fd_trace_mem (p : hpc_aio_provider) (x : action)
    (h : x ∈ (register_event_fd p).2) : is_bind x = true := by
  unfold register_event_fd at h
  cases hp : p._event_fd_registered <;> simp [hp] at h
  subst h
  rfl

theorem prepare_cb_trace_mem (p : hpc_aio_provider) (a : linux_disk_aio_context) (x : action)
    (h : x ∈ (prepare_cb p a).2) : is_unknown_type_log x = true := by
  unfold prepare_cb at h
  rcases a with ⟨ty, _, _, _, _, _, _, _, _, _, _⟩
  cases ty <;> simp at h
  subst h
  rfl

/-! ## Submission failure and success -/

/-- C1: an async submission for which `io_submit` returns a count other than 1
calls `complete_io` exactly once, with file-operation-failed and 0 bytes, and
returns file-operation-failed; one for which it returns 1 calls no
`complete_io`, creates no wait slot, does not wait and returns io-pending. -/
theorem aio_internal_async (p : hpc_aio_provider) (aio_tsk : Nat)
    (a : linux_disk_aio_context) (pbytes : Option Nat) (ret : Int) :
    (ret ≠ 1 →
      (aio_internal p aio_tsk a true pbytes ret).trace.filter is_complete_io
          = [action.complete_io aio_tsk error_code.ERR_FILE_OPERATION_FAILED 0] ∧
      (aio_internal p aio_tsk a true pbytes ret).result
          = outcome.returned error_code.ERR_FILE_OPERATION_FAILED) ∧
    (ret = 1 →
      (aio_internal p aio_tsk a true pbytes ret).trace.filter is_complete_io = [] ∧
      (aio_internal p aio_tsk a true pbytes ret).aio.evt = a.evt ∧
      action.new_notify_event ∉ (aio_internal p aio_tsk a true pbytes ret).trace ∧
      action.wait ∉ (aio_internal p aio_tsk a true pbytes ret).trace ∧
      (aio_internal p aio_tsk a true pbytes ret).result
          = outcome.returned error_code.ERR_IO_PENDING) := by
  refine ⟨fun h => ?_, fun h => ?_⟩
  · simp [aio_internal, h, prepare_evt, List.filter_append, register_event_fd_trace_filter,
      prepare_cb_trace_filter, is_complete_io]
  · subst h
    simp only [aio_internal, prepare_evt]
    refine ⟨?_, ?_, ?_, ?_, ?_⟩
    · simp [List.filter_append, register_event_fd_trace_filter, prepare_cb_trace_filter,
        is_complete_io]
    · simp [prepare_cb_evt]
    · intro hm
      simp at hm
      rcases hm with hm | hm
      · exact absurd (register_event_fd_trace_mem _ _ hm) (by simp [is_bind])
      · exact absurd (prepare_cb_trace_mem _ _ _ hm) (by simp [is_unknown_type_log])
    · intro hm
      simp at hm
      rcases hm with hm | hm
      · exact absurd (register_event_fd_trace_mem _ _ hm) (by simp [is_bind])
      · exact absurd (prepare_cb_trace_mem _ _ _ hm) (by simp [is_unknown_type_log])
    · simp

/-- Witness for C1: a rejected and an accepted async read on a fresh engine. -/
theorem aio_internal_async_witness :
    (aio_internal (sample_provider false) 7 (sample_aio aio_type.AIO_Read none) true none
        (-11)).trace.filter is_complete_io
      = [action.complete_io 7 error_code.ERR_FILE_OPERATION_FAILED 0] ∧
    (aio_internal (sample_provider false) 7 (sample_aio aio_type.AIO_Read none) true none
        1).result = outcome.returned error_code.ERR_IO_PENDING :=
  ⟨((aio_internal_async (sample_provider false) 7 (sample_aio aio_type.AIO_Read none) none
      (-11)).1 (by decide)).1,
   ((aio_internal_async (sample_provider false) 7 (sample_aio aio_type.AIO_Read none) none
      1).2 rfl).2.2.2.2⟩

/-- C2: a sync submission for which `io_submit` returns a count other than 1
returns file-operation-failed without waiting; the wait slot allocated before
the submission is deleted, the context is left without one, and `complete_io`
is not called. -/
theorem aio_internal_sync_rejected (p : hpc_aio_provider) (aio_tsk : Nat)
    (a : linux_disk_aio_context) (pbytes : Option Nat) (ret : Int) (h : ret ≠ 1) :
    (aio_internal p aio_tsk a false pbytes ret).result
        = outcome.returned error_code.ERR_FILE_OPERATION_FAILED ∧
    action.wait ∉ (aio_internal p aio_tsk a false pbytes ret).trace ∧
    (aio_internal p aio_tsk a false pbytes ret).aio.evt = none ∧
    action.new_notify_event ∈ (aio_internal p aio_tsk a false pbytes ret).trace ∧
    (aio_internal p aio_tsk a false pbytes ret).trace.getLast?
        = some action.delete_notify_event ∧
    (aio_internal p aio_tsk a false pbytes ret).trace.filter is_complete_io = [] := by
  simp only [aio_internal, prepare_evt, ne_eq, h, not_false_eq_true, if_true, if_false,
    Bool.not_false, Bool.false_eq_true]
  refine ⟨by simp, ?_, by simp, by simp, by simp, ?_⟩
  · intro hm
    simp at hm
    rcases hm with hm | hm
    · exact absurd (register_event_fd_trace_mem _ _ hm) (by simp [is_bind])
    · exact absurd (prepare_cb_trace_mem _ _ _ hm) (by simp [is_unknown_type_log])
  · simp [List.filter_append, register_event_fd_trace_filter, prepare_cb_trace_filter,
      is_complete_io]

/-- Witness for C2: a sync write the kernel queue refuses with count 0. -/
theorem aio_internal_sync_rejected_witness :
    (0 : Int) ≠ 1 ∧
    (aio_internal (sample_provider true) 7 (sample_aio aio_type.AIO_Write none) false (some 9)
        0).result = outcome.returned error_code.ERR_FILE_OPERATION_FAILED :=
  ⟨by decide,
   (aio_internal_sync_rejected (sample_provider true) 7 (sample_aio aio_type.AIO_Write none)
      (some 9) 0 (by decide)).1⟩

/-- C3, as stated, fails: a sync read refused by the kernel with the caller's
bytes output holding 7 returns file-operation-failed and leaves the output at
7, not 0. -/
theorem aio_internal_sync_rejected_pbytes_counterexample :
    (aio_internal (sample_provider true) 7 (sample_aio aio_type.AIO_Read none) false (some 7)
        0).result = outcome.returned error_code.ERR_FILE_OPERATION_FAILED ∧
    (aio_internal (sample_provider true) 7 (sample_aio aio_type.AIO_Read none) false (some 7)
        0).pbytes = some 7 ∧
    (aio_internal (sample_provider true) 7 (sample_aio aio_type.AIO_Read none) false (some 7)
        0).pbytes ≠ some 0 := by
  decide

/-- C3, amended: a sync submission for which `io_submit` returns a count other
than 1 returns file-operation-failed, has set the context's bytes result field
to 0, and does not write the caller's bytes output. -/
theorem aio_internal_sync_rejected_bytes (p : hpc_aio_provider) (aio_tsk : Nat)
    (a : linux_disk_aio_context) (pbytes : Option Nat) (ret : Int) (h : ret ≠ 1) :
    (aio_internal p aio_tsk a false pbytes ret).result
        = outcome.returned error_code.ERR_FILE_OPERATION_FAILED ∧
    (aio_internal p aio_tsk a false pbytes ret).aio.bytes = 0 ∧
    (aio_internal p aio_tsk a false pbytes ret).pbytes = pbytes := by
  simp [aio_internal, prepare_evt, h]

/-- Witness for the amended C3. -/
theorem aio_internal_sync_rejected_bytes_witness :
    (-22 : Int) ≠ 1 ∧
    (aio_internal (sample_provider false) 7 (sample_aio aio_type.AIO_Read none) false (some 7)
        (-22)).aio.bytes = 0 ∧
    (aio_internal (sample_provider false) 7 (sample_aio aio_type.AIO_Read none) false (some 7)
        (-22)).pbytes = some 7 :=
  ⟨by decide,
   (aio_internal_sync_rejected_bytes (sample_provider false) 7
      (sample_aio aio_type.AIO_Read none) (some 7) (-22) (by decide)).2⟩

/-! ## Resolution of completions -/

theorem to_uint32_static_cast_int (x : Int) :
    to_uint32 (static_cast_int x) = (x % 2 ^ 32).toNat := by
  unfold to_uint32 static_cast_int
  congr 1
  norm_num
  omega

theorem to_uint32_eq_iff (x : Int) :
    (((x % 2 ^ 32).toNat : Int) = x) ↔ (0 ≤ x ∧ x < 2 ^ 32) := by
  have h : (0 : Int) ≤ x % 2 ^ 32 := Int.emod_nonneg _ (by norm_num)
  rw [Int.toNat_of_nonneg h]
  norm_num
  omega

/-- C5, as stated, fails: the record with bytes -5 and error code 0, resolved
against a context without wait slot, reaches the callback as byte count
4294967291. -/
theorem complete_aio_async_bytes_counterexample :
    (sample_aio aio_type.AIO_Read none).evt = none ∧
    (complete_aio (sample_aio aio_type.AIO_Read none) (-5) 0).2
      = [action.complete_io 7 error_code.ERR_OK 4294967291] ∧
    ((4294967291 : Nat) : Int) ≠ -5 := by
  decide

/-- C5, amended: resolving a record `(bytes, err)` against a context without
wait slot calls `complete_io` exactly once, for the context's task, with status
ok when `err = 0` and file-operation-failed otherwise, and with the record's
bytes reduced modulo 2^32 as the byte count, which is the record's bytes
unchanged exactly when they lie between 0 and 2^32 - 1; the context is not
written, and neither a result store nor a wait-slot signal happens. -/
theorem complete_aio_async (a : linux_disk_aio_context) (bytes err : Int)
    (h : a.evt = none) :
    (∃ st,
      (complete_aio a bytes err).2.filter is_complete_io
          = [action.complete_io a.tsk st (bytes % 2 ^ 32).toNat] ∧
      (st = error_code.ERR_OK ↔ err = 0) ∧
      (st = error_code.ERR_FILE_OPERATION_FAILED ↔ err ≠ 0)) ∧
    ((((bytes % 2 ^ 32).toNat : Nat) : Int) = bytes ↔ (0 ≤ bytes ∧ bytes < 2 ^ 32)) ∧
    (complete_aio a bytes err).1 = a ∧
    action.notify ∉ (complete_aio a bytes err).2 ∧
    (∀ e, action.store_err e ∉ (complete_aio a bytes err).2) ∧
    (∀ b, action.store_bytes b ∉ (complete_aio a bytes err).2) := by
  refine ⟨?_, to_uint32_eq_iff bytes, ?_, ?_, ?_, ?_⟩
  · refine ⟨if err = 0 then error_code.ERR_OK else error_code.ERR_FILE_OPERATION_FAILED,
      ?_, ?_, ?_⟩
    · by_cases he : err = 0 <;> simp [complete_aio, h, he, is_complete_io, to_uint32]
    · by_cases he : err = 0 <;> simp [he]
    · by_cases he : err = 0 <;> simp [he]
  · simp [complete_aio, h]
  · by_cases he : err = 0 <;> simp [complete_aio, h, he]
  · intro e
    by_cases he : err = 0 <;> simp [complete_aio, h, he]
  · intro b
    by_cases he : err = 0 <;> simp [complete_aio, h, he]

/-- Witness for the amended C5: a record of 512 bytes with kernel error code
-5. -/
theorem complete_aio_async_witness :
    (sample_aio aio_type.AIO_Read none).evt = none ∧
    (complete_aio (sample_aio aio_type.AIO_Read none) 512 (-5)).1
      = sample_aio aio_type.AIO_Read none :=
  ⟨rfl, (complete_aio_async (sample_aio aio_type.AIO_Read none) 512 (-5) rfl).2.2.1⟩

/-- C6, as stated, fails: an accepted sync read made with the default null bytes
output is resolved with 512 bytes, and its woken caller dereferences the null
pointer instead of returning; an accepted sync read resolved with bytes -5 has
4294967291 stored as its byte count. -/
theorem aio_internal_sync_completed_counterexample :
    (aio_internal (sample_provider true) 7 (sample_aio aio_type.AIO_Read none) false none
        1).result = outcome.waiting ∧
    (aio_internal_wait (sample_provider true)
        (complete_aio
          (aio_internal (sample_provider true) 7 (sample_aio aio_type.AIO_Read none) false none
            1).aio 512 0).1
        none).result = outcome.null_dereference ∧
    (complete_aio
        (aio_internal (sample_provider true) 7 (sample_aio aio_type.AIO_Read none) false
          (some 0) 1).aio (-5) 0).1.bytes = 4294967291 ∧
    ((4294967291 : Nat) : Int) ≠ -5 := by
  decide

/-- C6, amended: a sync submission accepted by the kernel and made with a bytes
output leaves its caller suspended until the record is resolved; `complete_aio`
then stores the status (ok when `err = 0`, file-operation-failed otherwise) and
the record's bytes reduced modulo 2^32 (the record's bytes unchanged exactly
when they lie between 0 and 2^32 - 1) in the context, signals the wait slot
once after the two stores and calls no `complete_io`; the woken caller returns
that stored status and byte count and leaves the context without wait slot. -/
theorem aio_internal_sync_completed (p : hpc_aio_provider) (aio_tsk : Nat)
    (a : linux_disk_aio_context) (b0 : Nat) (bytes err : Int) :
    (aio_internal p aio_tsk a false (some b0) 1).result = outcome.waiting ∧
    (aio_internal_wait (aio_internal p aio_tsk a false (some b0) 1).provider
        (aio_internal p aio_tsk a false (some b0) 1).aio
        (aio_internal p aio_tsk a false (some b0) 1).pbytes).result = outcome.waiting ∧
    (complete_aio (aio_internal p aio_tsk a false (some b0) 1).aio bytes err).2
      = (if err ≠ 0 then [action.derror (log_message.aio_error err)] else []) ++
        [action.store_err
            (if err = 0 then error_code.ERR_OK else error_code.ERR_FILE_OPERATION_FAILED),
          action.store_bytes (bytes % 2 ^ 32).toNat,
          action.notify] ∧
    (complete_aio (aio_internal p aio_tsk a false (some b0) 1).aio bytes err).1.err
      = (if err = 0 then error_code.ERR_OK else error_code.ERR_FILE_OPERATION_FAILED) ∧
    (complete_aio (aio_internal p aio_tsk a false (some b0) 1).aio bytes err).1.bytes
      = (bytes % 2 ^ 32).toNat ∧
    ((((bytes % 2 ^ 32).toNat : Nat) : Int) = bytes ↔ (0 ≤ bytes ∧ bytes < 2 ^ 32)) ∧
    (aio_internal_wait (aio_internal p aio_tsk a false (some b0) 1).provider
        (complete_aio (aio_internal p aio_tsk a false (some b0) 1).aio bytes err).1
        (aio_internal p aio_tsk a false (some b0) 1).pbytes).result
      = outcome.returned
          (if err = 0 then error_code.ERR_OK else error_code.ERR_FILE_OPERATION_FAILED) ∧
    (aio_internal_wait (aio_internal p aio_tsk a false (some b0) 1).provider
        (complete_aio (aio_internal p aio_tsk a false (some b0) 1).aio bytes err).1
        (aio_internal p aio_tsk a false (some b0) 1).pbytes).pbytes
      = some (bytes % 2 ^ 32).toNat ∧
    (aio_internal_wait (aio_internal p aio_tsk a false (some b0) 1).provider
        (complete_aio (aio_internal p aio_tsk a false (some b0) 1).aio bytes err).1
        (aio_internal p aio_tsk a false (some b0) 1).pbytes).aio.evt = none := by
  refine ⟨?_, ?_, ?_, ?_, ?_, to_uint32_eq_iff bytes, ?_, ?_, ?_⟩ <;>
    simp [aio_internal, prepare_evt, aio_internal_wait, complete_aio, to_uint32]

/-- Witness for the amended C6: a sync read with bytes output, accepted and
then resolved with 512 bytes and error code 0. -/
theorem aio_internal_sync_completed_witness :
    (aio_internal_wait
        (aio_internal (sample_provider true) 7 (sample_aio aio_type.AIO_Read none) false
          (some 9) 1).provider
        (complete_aio
          (aio_internal (sample_provider true) 7 (sample_aio aio_type.AIO_Read none) false
            (some 9) 1).aio 512 0).1
        (aio_internal (sample_provider true) 7 (sample_aio aio_type.AIO_Read none) false
          (some 9) 1).pbytes).pbytes
      = some ((512 : Int) % 2 ^ 32).toNat :=
  (aio_internal_sync_completed (sample_provider true) 7 (sample_aio aio_type.AIO_Read none) 9
    512 0).2.2.2.2.2.2.2.1

/-- C9, as stated, fails: the record with result field -5 is delivered to the
callback as byte count 4294967291, and the record with result field 2^32 + 1
as byte count 1. -/
theorem dispatch_bytes_counterexample :
    (dispatch sample_world { data := 0, obj := 100, res := -5, res2 := 0 }).trace
      = [action.complete_aio 100 (-5) 0, action.complete_io 7 error_code.ERR_OK 4294967291] ∧
    ((4294967291 : Nat) : Int) ≠ -5 ∧
    (dispatch sample_world { data := 0, obj := 100, res := 4294967297, res2 := 0 }).trace
      = [action.complete_aio 100 1 0, action.complete_io 7 error_code.ERR_OK 1] ∧
    ((1 : Nat) : Int) ≠ 4294967297 := by
  decide

/-- C9, amended: the byte count delivered for a completion record, to the
callback in async mode and as stored and returned bytes in sync mode, is the
kernel-reported result field reduced modulo 2^32; it is that field unchanged
exactly when the field lies between 0 and 2^32 - 1. -/
theorem dispatch_bytes_mod (w : world) (ev : io_event) (p : hpc_aio_provider) (b0 : Nat) :
    ((w.heap ev.obj).evt = none →
      ∃ st, (dispatch w ev).trace.filter is_complete_io
        = w.trace.filter is_complete_io ++
          [action.complete_io (w.heap ev.obj).tsk st (ev.res % 2 ^ 32).toNat]) ∧
    ((w.heap ev.obj).evt ≠ none →
      ((dispatch w ev).heap ev.obj).bytes = (ev.res % 2 ^ 32).toNat ∧
      (aio_internal_wait p ((dispatch w ev).heap ev.obj) (some b0)).pbytes
        = some (ev.res % 2 ^ 32).toNat) ∧
    ((((ev.res % 2 ^ 32).toNat : Nat) : Int) = ev.res ↔ (0 ≤ ev.res ∧ ev.res < 2 ^ 32)) := by
  refine ⟨fun h => ?_, fun h => ?_, to_uint32_eq_iff ev.res⟩
  · refine ⟨if static_cast_int ev.res2 = 0 then error_code.ERR_OK
        else error_code.ERR_FILE_OPERATION_FAILED, ?_⟩
    by_cases he : static_cast_int ev.res2 = 0 <;>
      simp [dispatch, complete_aio, h, he, is_complete_io, List.filter_append,
        to_uint32_static_cast_int]
  · obtain ⟨e, he⟩ := Option.ne_none_iff_exists'.mp h
    simp [dispatch, complete_aio, he, aio_internal_wait, to_uint32_static_cast_int]

/-- Witness for the amended C9: a record of 4096 bytes for an async request. -/
theorem dispatch_bytes_mod_witness :
    (sample_world.heap 100).evt = none ∧
    ∃ st, (dispatch sample_world { data := 0, obj := 100, res := 4096, res2 := 0 }).trace.filter
        is_complete_io
      = sample_world.trace.filter is_complete_io ++
        [action.complete_io (sample_world.heap 100).tsk st ((4096 : Int) % 2 ^ 32).toNat] :=
  ⟨rfl, (dispatch_bytes_mod sample_world { data := 0, obj := 100, res := 4096, res2 := 0 }
      (sample_provider true) 0).1 rfl⟩

/-! ## The dispatcher loop -/

theorem on_aio_completed_loop_records (n : Int) (hn : 0 < n) (pre : List io_event)
    (rest : List (Int × io_event)) (w : world) :
    on_aio_completed_loop n (pre.map (fun e => ((1 : Int), e)) ++ rest) w
      = on_aio_completed_loop n rest (resolve_all pre w) := by
  induction pre generalizing w with
  | nil => rfl
  | cons e es ih =>
    simp only [List.map_cons, List.cons_append, on_aio_completed_loop, gt_iff_lt, hn, if_true,
      resolve_all]
    exact ih _

theorem on_aio_completed_loop_positive (n : Int) (hn : 0 < n) (polls : List (Int × io_event))
    (w : world) : (on_aio_completed_loop n polls w).2 = outcome.assertion_failed := by
  induction polls generalizing w with
  | nil => simp [on_aio_completed_loop, hn]
  | cons q qs ih =>
    obtain ⟨ret, ev⟩ := q
    by_cases hr : ret = 1
    · simp only [on_aio_completed_loop, gt_iff_lt, hn, if_true, hr]
      exact ih _
    · simp [on_aio_completed_loop, hn, hr]

/-- C4 on the code: with count 1 read from the channel and one record in the
kernel queue, the dispatcher resolves the record, polls a second time, gets
no record and stops in the failed assertion; with two records in the queue it
resolves both and then stops the same way. -/
theorem on_aio_completed_count_one :
    (on_aio_completed 0 4 1 [(1, { data := 0, obj := 100, res := 512, res2 := 0 })]
        sample_world).2 = outcome.assertion_failed ∧
    (on_aio_completed 0 4 1 [(1, { data := 0, obj := 100, res := 512, res2 := 0 })]
        sample_world).1.trace
      = [action.read_event_fd,
         action.io_getevents 1,
         action.complete_aio 100 512 0,
         action.complete_io 7 error_code.ERR_OK 512,
         action.io_getevents 0] ∧
    (on_aio_completed 0 4 1
        [(1, { data := 0, obj := 100, res := 512, res2 := 0 }),
         (1, { data := 0, obj := 101, res := 64, res2 := 0 })]
        sample_world).2 = outcome.assertion_failed ∧
    (on_aio_completed 0 4 1
        [(1, { data := 0, obj := 100, res := 512, res2 := 0 }),
         (1, { data := 0, obj := 101, res := 64, res2 := 0 })]
        sample_world).1.trace
      = [action.read_event_fd,
         action.io_getevents 1,
         action.complete_aio 100 512 0,
         action.complete_io 7 error_code.ERR_OK 512,
         action.io_getevents 1,
         action.complete_aio 101 64 0,
         action.complete_io 7 error_code.ERR_OK 64,
         action.io_getevents 0] := by
  decide

/-- C8: in a dispatcher run with a positive channel count, the first poll that
returns a count other than 1 ends the run in the failed assertion; the state
is the one after resolving the records of the polls before it, plus that
poll: its record buffer is not resolved and nothing follows it. -/
theorem on_aio_completed_poll_failure (events : Nat) (n : Int) (hn : 0 < n)
    (pre : List io_event) (ret : Int) (hret : ret ≠ 1) (ev : io_event)
    (post : List (Int × io_event)) (w : world) :
    on_aio_completed events 4 n (pre.map (fun e => ((1 : Int), e)) ++ (ret, ev) :: post) w
      = ({ heap := (resolve_all pre
                      { w with trace := w.trace ++ [action.read_event_fd] }).heap,
           trace := (resolve_all pre
                      { w with trace := w.trace ++ [action.read_event_fd] }).trace
                    ++ [action.io_getevents ret] },
         outcome.assertion_failed) := by
  simp only [on_aio_completed, ne_eq, not_true_eq_false, if_false]
  rw [on_aio_completed_loop_records n hn]
  simp [on_aio_completed_loop, hn, hret]

/-- Witness for C8: count 2, one record resolved, the second poll fails with
-4 while the buffer still holds a record. -/
theorem on_aio_completed_poll_failure_witness :
    (0 : Int) < 2 ∧ (-4 : Int) ≠ 1 ∧
    (on_aio_completed 0 4 2
        ([{ data := 0, obj := 100, res := 512, res2 := 0 }].map (fun e => ((1 : Int), e))
          ++ (-4, { data := 0, obj := 101, res := 64, res2 := 0 }) :: [])
        sample_world).2 = outcome.assertion_failed :=
  ⟨by decide, by decide,
   congrArg Prod.snd
     (on_aio_completed_poll_failure 0 2 (by decide)
       [{ data := 0, obj := 100, res := 512, res2 := 0 }] (-4) (by decide)
       { data := 0, obj := 101, res := 64, res2 := 0 } [] sample_world)⟩

/-! ## Registration of the completion channel -/

theorem prepare_cb_trace_filter_bind (p : hpc_aio_provider) (a : linux_disk_aio_context) :
    (prepare_cb p a).2.filter is_bind = [] := by
  unfold prepare_cb
  rcases a with ⟨ty, _, _, _, _, _, _, _, _, _, _⟩
  cases ty <;> simp [is_bind]

theorem aio_internal_provider (p : hpc_aio_provider) (aio_tsk : Nat)
    (a : linux_disk_aio_context) (async : Bool) (pbytes : Option Nat) (ret : Int) :
    (aio_internal p aio_tsk a async pbytes ret).provider = (register_event_fd p).1 := by
  unfold aio_internal
  by_cases h : ret = 1 <;> cases async <;> simp [h]

theorem aio_internal_trace_filter_bind (p : hpc_aio_provider) (aio_tsk : Nat)
    (a : linux_disk_aio_context) (async : Bool) (pbytes : Option Nat) (ret : Int) :
    (aio_internal p aio_tsk a async pbytes ret).trace.filter is_bind
      = (register_event_fd p).2.filter is_bind := by
  unfold aio_internal
  by_cases h : ret = 1 <;> cases async <;>
    simp [h, prepare_evt, List.filter_append, prepare_cb_trace_filter_bind, is_bind]

theorem register_event_fd_registered (p : hpc_aio_provider) :
    (register_event_fd p).1._event_fd_registered = true := by
  unfold register_event_fd
  cases h : p._event_fd_registered <;> simp [h]

theorem register_event_fd_event_fd (p : hpc_aio_provider) :
    (register_event_fd p).1._event_fd = p._event_fd := by
  unfold register_event_fd
  cases h : p._event_fd_registered <;> simp

theorem register_event_fd_of_registered (p : hpc_aio_provider)
    (h : p._event_fd_registered = true) : (register_event_fd p).2 = [] := by
  simp [register_event_fd, h]

theorem register_event_fd_of_unregistered (p : hpc_aio_provider)
    (h : p._event_fd_registered = false) :
    (register_event_fd p).2 = [action.bind_io_handle p._event_fd] := by
  simp [register_event_fd, h]

theorem submit_all_registered (p : hpc_aio_provider) (h : p._event_fd_registered = true)
    (subs : List submission) :
    (submit_all p subs).2.filter is_bind = [] ∧
    (submit_all p subs).1._event_fd_registered = true := by
  induction subs generalizing p with
  | nil => exact ⟨rfl, h⟩
  | cons s ss ih =>
    have hp := register_event_fd_registered p
    simp only [submit_all, List.filter_append, aio_internal_trace_filter_bind,
      aio_internal_provider, register_event_fd_of_registered p h, List.filter_nil,
      List.nil_append]
    exact ih _ hp

theorem submit_all_unregistered (p : hpc_aio_provider) (h : p._event_fd_registered = false)
    (s : submission) (ss : List submission) :
    (submit_all p (s :: ss)).2.filter is_bind = [action.bind_io_handle p._event_fd] := by
  simp only [submit_all, List.filter_append, aio_internal_trace_filter_bind,
    aio_internal_provider, register_event_fd_of_unregistered p h]
  rw [(submit_all_registered _ (register_event_fd_registered p) ss).1]
  simp [is_bind]

/-- C7: after a successful construction, with or without a looper at hand, and
any list of submissions, the completion channel has been bound at most once,
and exactly once when the list is not empty; a submission on an engine whose
flag is set leaves the flag set and binds nothing, and every submission leaves
the flag set. -/
theorem bind_io_handle_once (self : Nat) (looper : Bool) (ctx : Nat) (event_fd : Int) :
    ∃ p t0, hpc_aio_provider.ctor self looper 0 ctx event_fd = some (p, t0) ∧
      (∀ subs : List submission,
        ((t0 ++ (submit_all p subs).2).filter is_bind).length ≤ 1 ∧
        (subs ≠ [] →
          (t0 ++ (submit_all p subs).2).filter is_bind = [action.bind_io_handle event_fd])) ∧
      (∀ (q : hpc_aio_provider) (aio_tsk : Nat) (a : linux_disk_aio_context) (async : Bool)
          (pbytes : Option Nat) (ret : Int),
        (aio_internal q aio_tsk a async pbytes ret).provider._event_fd_registered = true ∧
        (q._event_fd_registered = true →
          (aio_internal q aio_tsk a async pbytes ret).trace.filter is_bind = [])) := by
  cases looper with
  | true =>
    refine ⟨_, _, rfl, fun subs => ?_, fun q aio_tsk a async pbytes ret => ?_⟩
    · have h := (submit_all_registered
        { self := self, _looper := true, _ctx := ctx, _event_fd := event_fd,
          _event_fd_registered := true } rfl subs).1
      simp [List.filter_append, h, is_bind]
    · refine ⟨?_, fun hq => ?_⟩
      · rw [aio_internal_provider]
        exact register_event_fd_registered q
      · rw [aio_internal_trace_filter_bind, register_event_fd_of_registered q hq]
        rfl
  | false =>
    refine ⟨_, _, rfl, fun subs => ?_, fun q aio_tsk a async pbytes ret => ?_⟩
    · cases subs with
      | nil => simp [submit_all]
      | cons s ss =>
        have h := submit_all_unregistered
          { self := self, _looper := false, _ctx := ctx, _event_fd := event_fd,
            _event_fd_registered := false } rfl s ss
        simp [h]
    · refine ⟨?_, fun hq => ?_⟩
      · rw [aio_internal_provider]
        exact register_event_fd_registered q
      · rw [aio_internal_trace_filter_bind, register_event_fd_of_registered q hq]
        rfl

/-- Witness for C7: an engine built without looper, then a rejected sync read
and an accepted async write. -/
theorem bind_io_handle_once_witness :
    ∃ p t0, hpc_aio_provider.ctor 1 false 0 9 5 = some (p, t0) ∧
      (t0 ++ (submit_all p
          [{ aio_tsk := 7, aio := sample_aio aio_type.AIO_Read none, async := false,
             pbytes := some 0, ret := -11 },
           { aio_tsk := 8, aio := sample_aio aio_type.AIO_Write none, async := true,
             pbytes := none, ret := 1 }]).2).filter is_bind
        = [action.bind_io_handle 5] := by
  obtain ⟨p, t0, hc, hs, _⟩ := bind_io_handle_once 1 false 9 5
  exact ⟨p, t0, hc, (hs _).2 (by simp)⟩

/-! ## The control block -/

theorem static_cast_int_open (fd : Int) (h0 : -(2 ^ 31) ≤ fd) (h1 : fd < 2 ^ 31) :
    static_cast_int (to_ssize_t («open» fd)) = fd := by
  unfold static_cast_int to_ssize_t «open» to_uintptr
  have h : (0 : Int) ≤ fd % 2 ^ 64 := Int.emod_nonneg _ (by norm_num)
  rw [Int.toNat_of_nonneg h]
  norm_num at h0 h1 ⊢
  omega

theorem aio_internal_cb (p : hpc_aio_provider) (aio_tsk : Nat) (a : linux_disk_aio_context)
    (async : Bool) (pbytes : Option Nat) (ret : Int) :
    (aio_internal p aio_tsk a async pbytes ret).aio.cb
        = io_set_eventfd (prepare_cb (register_event_fd p).1 a).1.cb p._event_fd ∧
    action.io_submit (aio_internal p aio_tsk a async pbytes ret).aio.cb
        ∈ (aio_internal p aio_tsk a async pbytes ret).trace := by
  unfold aio_internal
  by_cases h : ret = 1 <;> cases async <;>
    simp [h, prepare_evt, register_event_fd_event_fd]

/-- C10: for an operation kind that is neither read nor write, `aio_internal`
logs the kind and leaves the control block all zero; it then attaches the
completion channel and submits that block, and returns, binds, allocates,
logs, calls back and leaves every other field of the context as for a read
with the same inputs.  For a read or a write
the submitted block holds the opcode, the descriptor the context's file handle
stands for (the handle cast to `int`, which is the descriptor `open` made it
from), the context's buffer, length and offset, and the completion channel. -/
theorem aio_internal_control_block (p : hpc_aio_provider) (aio_tsk : Nat)
    (a : linux_disk_aio_context) (async : Bool) (pbytes : Option Nat) (ret : Int) :
    (∀ v, a.type = aio_type.unknown v →
      action.derror (log_message.unknown_aio_type (aio_type.unknown v))
          ∈ (aio_internal p aio_tsk a async pbytes ret).trace ∧
      (prepare_cb (register_event_fd p).1 a).1.cb
          = { data := 0, key := 0, aio_lio_opcode := 0, aio_reqprio := 0, aio_fildes := 0,
              buf := 0, nbytes := 0, offset := 0, flags := 0, resfd := 0 } ∧
      (aio_internal p aio_tsk a async pbytes ret).aio.cb
          = { data := 0, key := 0, aio_lio_opcode := 0, aio_reqprio := 0, aio_fildes := 0,
              buf := 0, nbytes := 0, offset := 0, flags := 1,
              resfd := (p._event_fd % 2 ^ 32).toNat } ∧
      action.io_submit
            { data := 0, key := 0, aio_lio_opcode := 0, aio_reqprio := 0, aio_fildes := 0,
              buf := 0, nbytes := 0, offset := 0, flags := 1,
              resfd := (p._event_fd % 2 ^ 32).toNat }
          ∈ (aio_internal p aio_tsk a async pbytes ret).trace ∧
      (aio_internal p aio_tsk a async pbytes ret).result
          = (aio_internal p aio_tsk { a with type := aio_type.AIO_Read } async pbytes
              ret).result ∧
      (aio_internal p aio_tsk a async pbytes ret).provider
          = (aio_internal p aio_tsk { a with type := aio_type.AIO_Read } async pbytes
              ret).provider ∧
      (aio_internal p aio_tsk a async pbytes ret).pbytes
          = (aio_internal p aio_tsk { a with type := aio_type.AIO_Read } async pbytes
              ret).pbytes ∧
      { (aio_internal p aio_tsk a async pbytes ret).aio with
          type := aio_type.AIO_Read, cb := iocb_zero }
          = { (aio_internal p aio_tsk { a with type := aio_type.AIO_Read } async pbytes
                ret).aio with cb := iocb_zero } ∧
      (aio_internal p aio_tsk a async pbytes ret).trace.filter
            (fun x => !is_io_submit x && !is_unknown_type_log x)
          = (aio_internal p aio_tsk { a with type := aio_type.AIO_Read } async pbytes
              ret).trace.filter (fun x => !is_io_submit x)) ∧
    (a.type = aio_type.AIO_Read ∨ a.type = aio_type.AIO_Write →
      action.io_submit (aio_internal p aio_tsk a async pbytes ret).aio.cb
          ∈ (aio_internal p aio_tsk a async pbytes ret).trace ∧
      (aio_internal p aio_tsk a async pbytes ret).aio.cb
          = { data := 0, key := 0,
              aio_lio_opcode :=
                if a.type = aio_type.AIO_Read then IO_CMD_PREAD else IO_CMD_PWRITE,
              aio_reqprio := 0,
              aio_fildes := static_cast_int (to_ssize_t a.file),
              buf := a.buffer, nbytes := a.buffer_size, offset := a.file_offset,
              flags := 1, resfd := (p._event_fd % 2 ^ 32).toNat } ∧
      (∀ fd : Int, -(2 ^ 31) ≤ fd → fd < 2 ^ 31 → a.file = «open» fd →
        (aio_internal p aio_tsk a async pbytes ret).aio.cb.aio_fildes = fd)) := by
  have hcb := aio_internal_cb p aio_tsk a async pbytes ret
  refine ⟨fun v hv => ?_, fun hrw => ?_⟩
  · rcases a with ⟨ty, file, buffer, buffer_size, file_offset, cb, tsk, this_, evt, err, bytes⟩
    simp only at hv
    subst hv
    have hz : (prepare_cb (register_event_fd p).1
        { type := aio_type.unknown v, file := file, buffer := buffer,
          buffer_size := buffer_size, file_offset := file_offset, cb := cb, tsk := tsk,
          this_ := this_, evt := evt, err := err, bytes := bytes }).1.cb = iocb_zero := by
      simp [prepare_cb]
    have ha : io_set_eventfd iocb_zero p._event_fd
        = { data := 0, key := 0, aio_lio_opcode := 0, aio_reqprio := 0, aio_fildes := 0,
            buf := 0, nbytes := 0, offset := 0, flags := 1,
            resfd := (p._event_fd % 2 ^ 32).toNat } := by
      simp [io_set_eventfd, iocb_zero, to_uint32]
    refine ⟨?_, ?_, ?_, ?_, ?_, ?_, ?_, ?_, ?_⟩
    · unfold aio_internal
      by_cases h : ret = 1 <;> cases async <;> simp [h, prepare_cb]
    · rw [hz]
      rfl
    · rw [hcb.1, hz, ha]
    · have h2 := hcb.2
      rw [hcb.1, hz, ha] at h2
      exact h2
    · unfold aio_internal
      by_cases h : ret = 1 <;> cases async <;> simp [h]
    · simp [aio_internal_provider]
    · unfold aio_internal
      by_cases h : ret = 1 <;> cases async <;> simp [h]
    · unfold aio_internal
      by_cases h : ret = 1 <;> cases async <;> simp [h, prepare_evt, prepare_cb]
    · unfold aio_internal
      cases hp : p._event_fd_registered <;> by_cases h : ret = 1 <;>
        by_cases hl : ret < 0 <;> cases async <;>
        simp [h, hl, hp, prepare_evt, prepare_cb, register_event_fd, List.filter_append,
          List.filter_cons, is_io_submit, is_unknown_type_log]
  · have hval : (aio_internal p aio_tsk a async pbytes ret).aio.cb
        = { data := 0, key := 0,
            aio_lio_opcode :=
              if a.type = aio_type.AIO_Read then IO_CMD_PREAD else IO_CMD_PWRITE,
            aio_reqprio := 0,
            aio_fildes := static_cast_int (to_ssize_t a.file),
            buf := a.buffer, nbytes := a.buffer_size, offset := a.file_offset,
            flags := 1, resfd := (p._event_fd % 2 ^ 32).toNat } := by
      rw [hcb.1]
      rcases a with ⟨ty, file, buffer, buffer_size, file_offset, cb, tsk, this_, evt, err,
        bytes⟩
      simp only at hrw
      rcases hrw with h | h <;> subst h <;>
        simp [prepare_cb, io_set_eventfd, io_prep_pread, io_prep_pwrite, iocb_zero, to_uint32]
    refine ⟨hcb.2, hval, fun fd h0 h1 hf => ?_⟩
    rw [hval, hf]
    exact static_cast_int_open fd h0 h1

/-- Witness for C10: a request of kind 0 and a read of the file opened as
descriptor 3. -/
theorem aio_internal_control_block_witness :
    (aio_internal (sample_provider true) 7 (sample_aio (aio_type.unknown 0) none) true none
        1).aio.cb
      = { data := 0, key := 0, aio_lio_opcode := 0, aio_reqprio := 0, aio_fildes := 0,
          buf := 0, nbytes := 0, offset := 0, flags := 1,
          resfd := ((sample_provider true)._event_fd % 2 ^ 32).toNat } ∧
    (aio_internal (sample_provider true) 7 (sample_aio aio_type.AIO_Read none) true none
        1).aio.cb.aio_fildes = 3 :=
  ⟨((aio_internal_control_block (sample_provider true) 7 (sample_aio (aio_type.unknown 0) none)
      true none 1).1 0 rfl).2.2.1,
   ((aio_internal_control_block (sample_provider true) 7 (sample_aio aio_type.AIO_Read none)
      true none 1).2 (Or.inl rfl)).2.2 3 (by decide) (by decide) (by decide)⟩

end dsn.tools
